import Mathlib

/-!
Session and data-access layer of the agent marketplace dashboard.

A shallow embedding of two source files of the frontend:

* `src/frontend/src/hooks/useApi.js` (the function `apiFetch`), and
* `src/frontend/src/context/AuthContext.jsx` (the component `AuthProvider`
  with `fetchProfile`, `login`, `logout`, `refresh`).

JavaScript values that the code handles (parsed JSON bodies, header objects,
the content of `localStorage`) are modelled by small data types; the browser
primitives the code calls (`fetch`, `res.json()`, `new Error(msg)`, `||`,
`?.`) are modelled by the functions of the first section.
-/

namespace Marketplace

/-! ## JavaScript values -/

/-- A value produced by `JSON.parse`. A number is carried by its canonical
decimal rendering, the string that `String(n)` returns; both zeros render
as `0`. The fields of an object are its members in the order of the body
text; a name that is repeated takes its last value. -/
inductive Json where
  | null
  | bool (b : Bool)
  | num (repr : String)
  | str (s : String)
  | arr (items : List Json)
  | obj (fields : List (String × Json))

namespace Json

/-- Truthiness of a parsed value, as tested by `||`, `!` and `if`. -/
def truthy : Json → Bool
  | null => false
  | bool b => b
  | num r => decide (r ≠ "0")
  | str s => decide (s ≠ "")
  | arr _ => true
  | obj _ => true

/-- Own property of a parsed object, the last member of that name; `none` is
`undefined`. -/
def field : List (String × Json) → String → Option Json
  | [], _ => none
  | (k, v) :: rest, name =>
    match field rest name with
    | some w => some w
    | none => if k = name then some v else none

/-- Reading `v.detail`, `v.message` or `v.id` on a non-nullish parsed value.
Only an object can own such a property: strings, numbers, booleans and arrays
have no member of any of these names, inherited or own. -/
def prop : Json → String → Option Json
  | obj fs, name => field fs name
  | _, _ => none

mutual
/-- The abstract operation `ToString` on a parsed value; `none` stands for the
`TypeError` raised when an object owns a (necessarily non-callable)
`toString` property. -/
def toJsString : Json → Option String
  | null => some "null"
  | bool true => some "true"
  | bool false => some "false"
  | num r => some r
  | str s => some s
  | arr items => joinItems items
  | obj fs => if (field fs "toString").isSome then none else some "[object Object]"
/-- The method `Array.prototype.join` with the default separator: `null`
elements render as the empty string. -/
def joinItems : List Json → Option String
  | [] => some ""
  | [null] => some ""
  | [x] => toJsString x
  | null :: y :: rest => (joinItems (y :: rest)).map (fun t => "," ++ t)
  | x :: y :: rest =>
    match toJsString x with
    | none => none
    | some h => (joinItems (y :: rest)).map (fun t => h ++ "," ++ t)
end

end Json

/-- Truthiness of a possibly `undefined` value. -/
def truthyOpt : Option Json → Bool
  | none => false
  | some v => v.truthy

/-- Optional chaining `a?.name`: `undefined` when `a` is `undefined` or
`null`. -/
def optChain (a : Option Json) (name : String) : Option Json :=
  match a with
  | none => none
  | some Json.null => none
  | some v => v.prop name

/-- The operator `a || b`. -/
def jsOr (a b : Option Json) : Option Json :=
  if truthyOpt a then a else b

/-- The message of `new Error(msg)`: empty when `msg` is `undefined`,
`ToString(msg)` otherwise (`none` when the conversion throws). -/
def errorText : Option Json → Option String
  | none => some ""
  | some v => v.toJsString

/-! ## Header objects -/

/-- A plain object with string values, given by the property writes that built
it, oldest first; a later write to a name replaces the earlier value. -/
abbrev Headers := List (String × String)

/-- Property read `h[name]`: the last value written under the name. -/
def Headers.get : Headers → String → Option String
  | [], _ => none
  | (k, v) :: rest, name =>
    match Headers.get rest name with
    | some w => some w
    | none => if k = name then some v else none

/-- Property write `h[name] = value`. -/
def Headers.set (h : Headers) (name value : String) : Headers :=
  h ++ [(name, value)]

/-- Object spread `{ ...base, ...extra }`: the properties of `extra` are
written onto those of `base`. -/
def Headers.spread (base extra : Headers) : Headers :=
  base ++ extra

/-! ## `apiFetch` (hooks/useApi.js) -/

/-- The `options` argument of `apiFetch`, an object: the members of a `fetch`
init object that a caller may set. The member `headers` is a plain object with
string values; `headers = none` is a missing member. -/
structure Options where
  method : Option String
  body : Option String
  headers : Option Headers

/-- The call `fetch(url, init)` as made by `apiFetch`. -/
structure Request where
  url : String
  method : Option String
  body : Option String
  headers : Headers

/-- A response delivered by the transport. `json` is the outcome of
`res.json()`: `none` when the promise rejects because the body is not valid
JSON. -/
structure Response where
  status : Nat
  statusText : String
  json : Option Json

/-- The getter `res.ok`: status in the range 200 to 299. -/
def Response.ok (r : Response) : Bool :=
  decide (200 ≤ r.status ∧ r.status ≤ 299)

/-- How the promise returned by `apiFetch` can reject. -/
inductive Failure where
  /-- The call `fetch` rejected: no response was obtained. -/
  | transport
  /-- The error from line 16, `throw new Error(msg)`, with its message. -/
  | http (message : String)
  /-- The constructor `new Error(msg)` threw while converting `msg`. -/
  | conversion
  /-- The call `res.json()` of line 18 rejected. -/
  | decode

/-- The constant `BASE`. -/
def BASE : String := "/api"

/-- Lines 9 to 11: the headers object handed to `fetch`. `store` is
`localStorage.getItem('agentApiKey')`. -/
def requestHeaders (store : Option String) (options : Options) : Headers :=
  let headers := Headers.spread [("Content-Type", "application/json")] (options.headers.getD [])
  match store with
  | none => headers
  | some key => if key ≠ "" then Headers.set headers "X-Agent-Key" key else headers

/-- Line 12: the request, `{ ...options, headers }` at `BASE + path`. -/
def buildRequest (store : Option String) (path : String) (options : Options) : Request :=
  { url := BASE ++ path
    method := options.method
    body := options.body
    headers := requestHeaders store options }

/-- Lines 14 and 15: the value `msg` selected from an error response. -/
def selectMessage (res : Response) : Option Json :=
  let body : Option Json := some (res.json.getD Json.null)
  jsOr (jsOr (optChain (optChain body "detail") "message") (optChain body "detail"))
    (some (Json.str res.statusText))

/-- Lines 13 to 18: what `apiFetch` does with the outcome of `fetch`. -/
def settle : Option Response → Except Failure Json
  | none => Except.error Failure.transport
  | some res =>
    if res.ok then
      match res.json with
      | some v => Except.ok v
      | none => Except.error Failure.decode
    else
      match errorText (selectMessage res) with
      | some m => Except.error (Failure.http m)
      | none => Except.error Failure.conversion

/-- The function `apiFetch`: the requests it hands to the transport, oldest
first, and the settlement of its promise. `transport` answers a request with a
response, or with `none` when `fetch` rejects. -/
def apiFetch (store : Option String) (transport : Request → Option Response)
    (path : String) (options : Options) : List Request × Except Failure Json :=
  let req := buildRequest store path options
  ([req], settle (transport req))

/-! ## `AuthProvider` (context/AuthContext.jsx)

The component is modelled as it behaves in a production build, where each
effect runs once per change of its dependencies. One transition of the model
is one event of the page (a call of `login`, `logout` or `refresh`, or the
arrival of the answer to an identity request) followed by the re-render and
the effect of line 29 that the event causes. -/

/-- The state the component owns or writes: the `localStorage` entry
`agentApiKey`, the three `useState` cells, and the identity requests issued
through `fetch('/api/agents/me')`. A request is named by its position in
`sent`, which records the `X-Agent-Key` header of every request made so far;
`pending` lists the requests whose `await` has not resumed yet. The cell
`agent` holds `null` while no identity is known. -/
structure Session where
  store : Option String
  apiKey : Option String
  agent : Json
  loading : Bool
  sent : List String
  pending : List Nat

/-- Lines 11 to 16 of `fetchProfile(key)`: the synchronous part, up to the
first `await`. A falsy key (`null` or the empty string) clears the identity
and returns; any other key raises `loading` and issues the request. -/
def fetchProfile (s : Session) (key : Option String) : Session :=
  match key with
  | none => { s with agent := Json.null, loading := false }
  | some k =>
    if k = "" then { s with agent := Json.null, loading := false }
    else { s with loading := true, sent := s.sent ++ [k], pending := s.pending ++ [s.sent.length] }

/-- Line 29: after a render in which `apiKey` differs from its value `prev` at
the previous render, the effect calls `fetchProfile(apiKey)`. -/
def useEffect (prev : Option String) (s : Session) : Session :=
  if s.apiKey = prev then s else fetchProfile s s.apiKey

/-- Lines 6 to 8 and the effect of the first render. `store` is the content of
`localStorage` when the component is created. -/
def AuthProvider (store : Option String) : Session :=
  fetchProfile
    { store := store
      apiKey := store
      agent := Json.null
      loading := match store with
        | none => false
        | some k => decide (k ≠ "")
      sent := []
      pending := [] }
    store

/-- Lines 31 to 34. -/
def login (s : Session) (key : String) : Session :=
  useEffect s.apiKey { s with store := some key, apiKey := some key }

/-- Lines 36 to 40. -/
def logout (s : Session) : Session :=
  useEffect s.apiKey { s with store := none, apiKey := none, agent := Json.null }

/-- Line 42. -/
def refresh (s : Session) : Session :=
  fetchProfile s s.apiKey

/-- What the `try` block of `fetchProfile` obtains from the answer to its
request: `some data` when `fetch` resolves, `res.ok` holds and `res.json()`
resolves with `data`; `none` when any of the three throws (lines 14 to 18). -/
def identityBody : Option Response → Option Json
  | none => none
  | some res => if res.ok then res.json else none

/-- Lines 17 to 25 of `fetchProfile`: the part that runs when the answer to
request `id` arrives, with the re-render that follows. Nothing happens for a
request that is not pending. -/
def fetchProfileDone (s : Session) (id : Nat) (answer : Option Response) : Session :=
  if id ∈ s.pending then
    match identityBody answer with
    | some data =>
      { s with pending := s.pending.erase id, agent := data, loading := false }
    | none =>
      useEffect s.apiKey
        { s with pending := s.pending.erase id, agent := Json.null, store := none,
                 apiKey := none, loading := false }
  else s

/-- One resolution run from start to end with nothing in between: the call
`fetchProfile(key)` and the arrival of the answer to the request it issued. -/
def resolve (s : Session) (key : Option String) (answer : Option Response) : Session :=
  fetchProfileDone (fetchProfile s key) s.sent.length answer

/-- The events that drive the component. -/
inductive Event where
  | login (key : String)
  | logout
  | refresh
  | answer (id : Nat) (response : Option Response)

/-- One transition. -/
def step (s : Session) : Event → Session
  | Event.login key => login s key
  | Event.logout => logout s
  | Event.refresh => refresh s
  | Event.answer id response => fetchProfileDone s id response

/-- A sequence of events, oldest first. -/
def run (s : Session) (events : List Event) : Session :=
  events.foldl step s

/-- States reachable from the creation of the component. -/
inductive Reachable : Session → Prop where
  | init (store : Option String) : Reachable (AuthProvider store)
  | next (s : Session) (e : Event) : Reachable s → Reachable (step s e)

/-- An event that does not overlap an identity request: a call of `login`,
`logout` or `refresh` made while nothing is pending, or an answer. -/
def Event.inTurn (s : Session) : Event → Prop
  | Event.answer _ _ => True
  | _ => s.pending = []

/-- States reachable when every identity request is answered before the next
call of `login`, `logout` or `refresh`. -/
inductive ReachableInTurn : Session → Prop where
  | init (store : Option String) : ReachableInTurn (AuthProvider store)
  | next (s : Session) (e : Event) :
    ReachableInTurn s → e.inTurn s → ReachableInTurn (step s e)


/-- The invariant kept by the states of `ReachableInTurn`: the cached
credential equals the stored one, at most one request is pending, `loading` is
raised exactly while one is, and an identity or a pending request comes with a
non-empty stored credential. -/
def InTurnInvariant (s : Session) : Prop :=
  s.apiKey = s.store ∧
  s.pending.length ≤ 1 ∧
  (s.loading = true ↔ s.pending ≠ []) ∧
  (s.agent ≠ Json.null → ∃ k, s.store = some k ∧ k ≠ "") ∧
  (s.pending ≠ [] → ∃ k, s.store = some k ∧ k ≠ "")

/-! ## Views (pages/Dashboard.jsx, pages/dashboard/Jobs.jsx, main.jsx) -/

/-- A call of `apiFetch` made by a view while the session is `s`: line 10
reads the store; no line writes `localStorage` or a cell of the session. The
result is the session after the call, the requests made and the settlement. -/
def pageFetch (s : Session) (transport : Request → Option Response) (path : String)
    (options : Options) : Session × List Request × Except Failure Json :=
  (s, apiFetch s.store transport path options)

/-- The member `message` of the error a rejection carries: the message given
to `new Error` on line 16 of `apiFetch`, or the text `browser` that the
browser puts in the error it raises itself. -/
def Failure.message (browser : Failure → String) : Failure → String
  | Failure.http m => m
  | f => browser f

/-- The `useState` cells of the view `Jobs` (lines 16 to 19). -/
structure Jobs where
  jobs : Json
  loading : Bool
  error : String
  role : String

/-- Lines 24 and 25 of `Jobs`: the effect raises the local `loading` and calls
`apiFetch` with the path for the current role. -/
def Jobs.effect (v : Jobs) : Jobs × String :=
  ({ v with loading := true }, "/jobs?as_role=" ++ v.role ++ "&limit=50")

/-- Lines 26 to 28 of `Jobs`: `then(setJobs)`, `catch(e => setError(e.message))`
and `finally(() => setLoading(false))`. -/
def Jobs.settled (browser : Failure → String) (v : Jobs) : Except Failure Json → Jobs
  | Except.ok data => { v with jobs := data, loading := false }
  | Except.error f => { v with error := f.message browser, loading := false }

/-- The effect of `Jobs` from start to end while the session is `s`: the
session and the view after it. -/
def Jobs.load (browser : Failure → String) (transport : Request → Option Response)
    (s : Session) (v : Jobs) : Session × Jobs :=
  ((pageFetch s transport (Jobs.effect v).2 ⟨none, none, none⟩).1,
   Jobs.settled browser (Jobs.effect v).1
     (pageFetch s transport (Jobs.effect v).2 ⟨none, none, none⟩).2.2)

/-- What the component `Dashboard` returns: the text of line 12, the page of
lines 15 to 28 with the login button (and the modal when `showLogin` is set),
or the sidebar of lines 31 to 54 with the `Outlet` in which the router mounts
the sub-view of the current route. -/
inductive DashboardView where
  | authenticating
  | loginPrompt (modal : Bool)
  | outlet

/-- Lines 12 to 54 of `Dashboard`. -/
def Dashboard (agent : Json) (loading showLogin : Bool) : DashboardView :=
  if loading then DashboardView.authenticating
  else if !agent.truthy then DashboardView.loginPrompt showLogin
  else DashboardView.outlet

/-- The child routes of `/dashboard` (main.jsx, lines 41 to 45). -/
inductive SubView where
  | overview
  | jobs
  | services
  | negotiations
  | transactions

/-- The sub-view mounted by what `Dashboard` returns: only an `Outlet` mounts
the child of the current route. -/
def DashboardView.mounted (route : SubView) : DashboardView → Option SubView
  | DashboardView.outlet => some route
  | _ => none

/-- A value inside a template literal; `undefined` renders as `undefined`,
and `none` is the thrown `TypeError`. -/
def templateText : Option Json → Option String
  | none => some "undefined"
  | some v => v.toJsString

/-- The paths that a sub-view hands to `apiFetch` when it mounts, with its
state as initialised: `Overview` fetches nothing; `Jobs` starts with the role
`worker`; `MyServices` returns early without an identity and builds its path
from `agent.id`; `Negotiations` starts with no filter; `Transactions` asks for
both histories. -/
def SubView.mountPaths (agent : Json) : SubView → List String
  | SubView.overview => []
  | SubView.jobs => ["/jobs?as_role=worker&limit=50"]
  | SubView.services =>
    if !agent.truthy then []
    else
      match templateText (agent.prop "id") with
      | some id => ["/services/agents/" ++ id ++ "/services"]
      | none => []
  | SubView.negotiations => ["/negotiations/"]
  | SubView.transactions => ["/deposits/history?limit=50", "/withdrawals/history?limit=50"]

/-- The page-data paths requested when `Dashboard` renders on `route`. -/
def Dashboard.fetches (agent : Json) (loading showLogin : Bool) (route : SubView) :
    List String :=
  match (Dashboard agent loading showLogin).mounted route with
  | some view => view.mountPaths agent
  | none => []

/-! ## `LoginModal` (components/LoginModal.jsx) -/

/-- The code points removed by `String.prototype.trim`: the white space and
the line terminators of the language. -/
def isTrimmed (c : Char) : Bool :=
  c.toNat = 9 || c.toNat = 10 || c.toNat = 11 || c.toNat = 12 || c.toNat = 13 ||
  c.toNat = 32 || c.toNat = 160 || c.toNat = 5760 ||
  (8192 ≤ c.toNat && c.toNat ≤ 8202) ||
  c.toNat = 8232 || c.toNat = 8233 || c.toNat = 8239 || c.toNat = 8287 ||
  c.toNat = 12288 || c.toNat = 65279

/-- The method `trim`. -/
def trim (s : String) : String :=
  String.mk ((s.toList.dropWhile isTrimmed).reverse.dropWhile isTrimmed).reverse

/-- The `useState` cells of the modal (lines 6 to 8) and whether `onClose` has
been called. -/
structure LoginModal where
  key : String
  error : String
  loading : Bool
  closed : Bool

/-- Lines 12 to 18 of `handleSubmit`, up to the `await`: the cells after it and
the `X-Agent-Key` header of the trial request, `none` when the handler returns
on line 12 without one. -/
def handleSubmit (m : LoginModal) : LoginModal × Option String :=
  if trim m.key = "" then (m, none)
  else ({ m with loading := true, error := "" }, some (trim m.key))

/-- Lines 19 to 25 of `handleSubmit`, run when the trial request of a
submission of `key` is answered: with a response, or with the message of the
error `fetch` rejected with. The result is the session, the cells of the
modal, and the arguments of the calls of `login` made. -/
def handleSubmitDone (s : Session) (m : LoginModal) (key : String) :
    Except String Response → Session × LoginModal × List String
  | Except.ok res =>
    if res.ok then
      (login s (trim key), { m with closed := true, loading := false }, [trim key])
    else (s, { m with error := "Invalid API key", loading := false }, [])
  | Except.error text => (s, { m with error := text, loading := false }, [])

/-! ## Proofs -/

/-- The failing branch of `fetchProfileDone`, for any pending request. -/
theorem fetchProfileDone_failure (s : Session) (id : Nat) (answer : Option Response)
    (hid : id ∈ s.pending) (hfail : identityBody answer = none) :
    (fetchProfileDone s id answer).store = none ∧
    (fetchProfileDone s id answer).agent = Json.null ∧
    (fetchProfileDone s id answer).apiKey = none ∧
    (fetchProfileDone s id answer).loading = false ∧
    (fetchProfileDone s id answer).sent = s.sent ∧
    (fetchProfileDone s id answer).pending = s.pending.erase id := by
  unfold fetchProfileDone
  rw [if_pos hid, hfail]
  unfold useEffect
  by_cases h : s.apiKey = none
  · simp [h]
  · have h2 : ¬ (none = s.apiKey) := fun e => h e.symm
    simp [h2, fetchProfile]

/-- The succeeding branch of `fetchProfileDone`, for any pending request. -/
theorem fetchProfileDone_success (s : Session) (id : Nat) (answer : Option Response)
    (data : Json) (hid : id ∈ s.pending) (hok : identityBody answer = some data) :
    fetchProfileDone s id answer =
      { s with pending := s.pending.erase id, agent := data, loading := false } := by
  unfold fetchProfileDone
  rw [if_pos hid, hok]

/-- A non-empty key makes `fetchProfile` issue one request, named by the
length of the log before the call. -/
theorem fetchProfile_key (s : Session) (k : String) (hk : k ≠ "") :
    fetchProfile s (some k) =
      { s with loading := true, sent := s.sent ++ [k],
               pending := s.pending ++ [s.sent.length] } := by
  simp [fetchProfile, hk]

/-- The three ways an identity request fails are exactly the answers from
which the `try` block obtains no data. -/
theorem identityBody_eq_none (answer : Option Response) :
    identityBody answer = none ↔
      answer = none ∨ ∃ res, answer = some res ∧ (res.ok = false ∨ res.json = none) := by
  cases answer with
  | none => simp [identityBody]
  | some res =>
    by_cases h : res.ok = true
    · simp [identityBody, h]
    · simp [identityBody, h]

/-- What `fetchProfileDone` leaves in each cell, for any pending request: the
identity is the data obtained, or `null`; a failure empties the store and the
cached credential. -/
theorem fetchProfileDone_cells (s : Session) (id : Nat) (answer : Option Response)
    (hid : id ∈ s.pending) :
    (fetchProfileDone s id answer).agent = (identityBody answer).getD Json.null ∧
    (fetchProfileDone s id answer).store =
      (if (identityBody answer).isSome then s.store else none) ∧
    (fetchProfileDone s id answer).apiKey =
      (if (identityBody answer).isSome then s.apiKey else none) ∧
    (fetchProfileDone s id answer).loading = false ∧
    (fetchProfileDone s id answer).pending = s.pending.erase id ∧
    (fetchProfileDone s id answer).sent = s.sent := by
  cases hb : identityBody answer with
  | none =>
    have h := fetchProfileDone_failure s id answer hid hb
    simp [h.1, h.2.1, h.2.2.1, h.2.2.2.1, h.2.2.2.2.1, h.2.2.2.2.2]
  | some d =>
    rw [fetchProfileDone_success s id answer d hid hb]
    simp

/-- What `login` does for a non-empty key that differs from the cached one:
both copies of the credential are written and one request is issued. -/
theorem login_fresh (s : Session) (k : String) (hk : k ≠ "") (hnew : s.apiKey ≠ some k) :
    login s k =
      { s with store := some k, apiKey := some k, loading := true,
               sent := s.sent ++ [k], pending := s.pending ++ [s.sent.length] } := by
  have h2 : ¬ (some k = s.apiKey) := fun e => hnew e.symm
  simp [login, useEffect, h2, fetchProfile, hk]

/-- The two cases in which `login` issues no request: the empty key, and a
key equal to the cached one. -/
theorem login_without_request (s : Session) (k : String) :
    ((login s "").sent = s.sent ∧ (login s "").store = some "") ∧
    (s.apiKey = some k → login s k = { s with store := some k }) := by
  refine ⟨?_, ?_⟩
  · by_cases h : s.apiKey = some ""
    · simp [login, useEffect, h]
    · have h2 : ¬ (some "" = s.apiKey) := fun e => h e.symm
      simp [login, useEffect, h2, fetchProfile]
  · intro h
    simp [login, useEffect, h]

/-! ### Identity resolution -/

/-- C1: for every non-empty credential, when the identity request issued by
`fetchProfile` fails (the transport rejects, the status is not a success, or
the body of a success response does not parse), the state after the failure
has an empty store, no identity, no cached credential and `loading` false. -/
theorem failed_resolution_clears_session (s : Session) (k : String) (answer : Option Response)
    (hk : k ≠ "")
    (hfail : answer = none ∨ ∃ res, answer = some res ∧ (res.ok = false ∨ res.json = none)) :
    (fetchProfile s (some k)).sent = s.sent ++ [k] ∧
    (resolve s (some k) answer).store = none ∧
    (resolve s (some k) answer).agent = Json.null ∧
    (resolve s (some k) answer).apiKey = none ∧
    (resolve s (some k) answer).loading = false := by
  have hid : s.sent.length ∈ (fetchProfile s (some k)).pending := by
    rw [fetchProfile_key s k hk]; simp
  have h := fetchProfileDone_failure (fetchProfile s (some k)) s.sent.length answer hid
    ((identityBody_eq_none answer).mpr hfail)
  refine ⟨?_, h.1, h.2.1, h.2.2.1, h.2.2.2.1⟩
  rw [fetchProfile_key s k hk]

/-- The scenario of C1 at a concrete input: the key `agnt_bad`, stored by
`login`, is answered by a 401 response. -/
theorem failed_resolution_clears_session_witness :
    "agnt_bad" ≠ "" ∧
    (fetchProfile ⟨some "agnt_bad", some "agnt_bad", Json.null, false, [], []⟩
      (some "agnt_bad")).sent = [] ++ ["agnt_bad"] ∧
    (resolve ⟨some "agnt_bad", some "agnt_bad", Json.null, false, [], []⟩ (some "agnt_bad")
      (some ⟨401, "Unauthorized", none⟩)).store = none ∧
    (resolve ⟨some "agnt_bad", some "agnt_bad", Json.null, false, [], []⟩ (some "agnt_bad")
      (some ⟨401, "Unauthorized", none⟩)).agent = Json.null ∧
    (resolve ⟨some "agnt_bad", some "agnt_bad", Json.null, false, [], []⟩ (some "agnt_bad")
      (some ⟨401, "Unauthorized", none⟩)).apiKey = none ∧
    (resolve ⟨some "agnt_bad", some "agnt_bad", Json.null, false, [], []⟩ (some "agnt_bad")
      (some ⟨401, "Unauthorized", none⟩)).loading = false :=
  ⟨by decide,
   failed_resolution_clears_session ⟨some "agnt_bad", some "agnt_bad", Json.null, false, [], []⟩
     "agnt_bad" (some ⟨401, "Unauthorized", none⟩) (by decide)
     (Or.inr ⟨_, rfl, Or.inl rfl⟩)⟩

/-- C2 fails on the code in two ways. A 200 response whose body is the JSON
value `null` leaves `loading` false, the identity `null` and the key still
stored, which is neither of the two terminal states. And `login` with the
empty key issues no request and leaves the empty string in the store. -/
theorem login_settles_counterexample :
    ((fetchProfileDone (login (AuthProvider none) "agnt_good") 0
        (some ⟨200, "OK", some Json.null⟩)).loading = false ∧
     (fetchProfileDone (login (AuthProvider none) "agnt_good") 0
        (some ⟨200, "OK", some Json.null⟩)).agent = Json.null ∧
     (fetchProfileDone (login (AuthProvider none) "agnt_good") 0
        (some ⟨200, "OK", some Json.null⟩)).store = some "agnt_good") ∧
    ((login (AuthProvider none) "").sent = [] ∧
     (login (AuthProvider none) "").agent = Json.null ∧
     (login (AuthProvider none) "").store = some "") := by
  refine ⟨⟨rfl, rfl, rfl⟩, rfl, rfl, rfl⟩

/-- C2 as the code has it: for a non-empty key that differs from the cached
one, `login` issues exactly one identity request, and once it is answered
`loading` is false and the state is one of two: the answer was a success
response with JSON body `d`, the identity is `d` and the key is stored and
cached; or the answer was a failure, the identity is absent and both the store
and the cached credential are cleared. -/
theorem login_settles (s : Session) (k : String) (answer : Option Response)
    (hk : k ≠ "") (hnew : s.apiKey ≠ some k) :
    (login s k).sent = s.sent ++ [k] ∧
    (fetchProfileDone (login s k) s.sent.length answer).loading = false ∧
    ((∃ d, identityBody answer = some d ∧
        (fetchProfileDone (login s k) s.sent.length answer).agent = d ∧
        (fetchProfileDone (login s k) s.sent.length answer).store = some k ∧
        (fetchProfileDone (login s k) s.sent.length answer).apiKey = some k) ∨
     (identityBody answer = none ∧
        (fetchProfileDone (login s k) s.sent.length answer).agent = Json.null ∧
        (fetchProfileDone (login s k) s.sent.length answer).store = none ∧
        (fetchProfileDone (login s k) s.sent.length answer).apiKey = none)) := by
  have hid : s.sent.length ∈ (login s k).pending := by
    rw [login_fresh s k hk hnew]; simp
  refine ⟨by rw [login_fresh s k hk hnew], ?_⟩
  cases hb : identityBody answer with
  | none =>
    have h := fetchProfileDone_failure (login s k) s.sent.length answer hid hb
    exact ⟨h.2.2.2.1, Or.inr ⟨rfl, h.2.1, h.1, h.2.2.1⟩⟩
  | some d =>
    have h := fetchProfileDone_success (login s k) s.sent.length answer d hid hb
    rw [h, login_fresh s k hk hnew]
    exact ⟨rfl, Or.inl ⟨d, rfl, rfl, rfl, rfl⟩⟩

/-- The amended C2 at a concrete input: `login` with `agnt_good` from the
initial state of an empty store, answered by a 200 response. -/
theorem login_settles_witness :
    "agnt_good" ≠ "" ∧ (AuthProvider none).apiKey ≠ some "agnt_good" ∧
    (fetchProfileDone (login (AuthProvider none) "agnt_good") (AuthProvider none).sent.length
      (some ⟨200, "OK", some (Json.str "Scout")⟩)).loading = false :=
  ⟨by decide, by decide,
   (login_settles (AuthProvider none) "agnt_good" (some ⟨200, "OK", some (Json.str "Scout")⟩)
      (by decide) (by decide)).2.1⟩


/-- C3 fails on the code. With the request for `k1` pending from creation and
`login` called with `k2`: when the `k1` request fails first and the `k2`
request then succeeds, the store ends empty although the resolution of `k2`
alone leaves `k2` stored; and when the `k2` request succeeds first and the
`k1` request then succeeds, the identity ends as the body of the stale `k1`
answer. -/
theorem stale_answer_counterexample :
    ((fetchProfileDone (fetchProfileDone (login (AuthProvider (some "k1")) "k2") 0
        (some ⟨401, "Unauthorized", none⟩)) 1 (some ⟨200, "OK", some (Json.str "two")⟩)).store
        = none ∧
     (fetchProfileDone (login (AuthProvider (some "k1")) "k2") 1
        (some ⟨200, "OK", some (Json.str "two")⟩)).store = some "k2") ∧
    ((fetchProfileDone (fetchProfileDone (login (AuthProvider (some "k1")) "k2") 1
        (some ⟨200, "OK", some (Json.str "two")⟩)) 0
        (some ⟨200, "OK", some (Json.str "one")⟩)).agent = Json.str "one" ∧
     (fetchProfileDone (login (AuthProvider (some "k1")) "k2") 1
        (some ⟨200, "OK", some (Json.str "two")⟩)).agent = Json.str "two" ∧
     Json.str "one" ≠ Json.str "two") := by
  refine ⟨⟨rfl, rfl⟩, rfl, rfl, ?_⟩
  intro h
  injection h with h
  exact absurd h (by decide)

/-- C3 as the code has it. With a request `id1` for `k1` pending and `login`
called with a non-empty `k2` that differs from the cached key, whatever the
two answers `a1` (to `k1`) and `a2` (to `k2`): the final identity is the data
of the answer that arrives last, or absent when that answer is a failure; the
final store holds `k2` when both answers succeed and is empty when either
fails. The resolution of `k2` alone gives the data of `a2` and a store that
depends on `a2` only. So the outcome is that of `k2` alone when the `k1` answer
arrives first and succeeds, and when both answers fail, in either order. -/
theorem stale_answer_effect (s : Session) (k1 k2 : String) (id1 : Nat)
    (a1 a2 : Option Response)
    (hflight : id1 ∈ s.pending) (hk1 : s.sent[id1]? = some k1)
    (hk2 : k2 ≠ "") (hnew : s.apiKey ≠ some k2) :
    ((fetchProfileDone (fetchProfileDone (login s k2) id1 a1) s.sent.length a2).agent
        = (identityBody a2).getD Json.null ∧
     (fetchProfileDone (fetchProfileDone (login s k2) id1 a1) s.sent.length a2).store
        = (if (identityBody a1).isSome ∧ (identityBody a2).isSome then some k2 else none)) ∧
    ((fetchProfileDone (fetchProfileDone (login s k2) s.sent.length a2) id1 a1).agent
        = (identityBody a1).getD Json.null ∧
     (fetchProfileDone (fetchProfileDone (login s k2) s.sent.length a2) id1 a1).store
        = (if (identityBody a1).isSome ∧ (identityBody a2).isSome then some k2 else none)) ∧
    ((fetchProfileDone (login s k2) s.sent.length a2).agent = (identityBody a2).getD Json.null ∧
     (fetchProfileDone (login s k2) s.sent.length a2).store
        = (if (identityBody a2).isSome then some k2 else none)) ∧
    ((identityBody a1).isSome →
      (fetchProfileDone (fetchProfileDone (login s k2) id1 a1) s.sent.length a2).agent
        = (fetchProfileDone (login s k2) s.sent.length a2).agent ∧
      (fetchProfileDone (fetchProfileDone (login s k2) id1 a1) s.sent.length a2).store
        = (fetchProfileDone (login s k2) s.sent.length a2).store) ∧
    (identityBody a1 = none → identityBody a2 = none →
      ((fetchProfileDone (fetchProfileDone (login s k2) id1 a1) s.sent.length a2).agent
        = (fetchProfileDone (login s k2) s.sent.length a2).agent ∧
       (fetchProfileDone (fetchProfileDone (login s k2) id1 a1) s.sent.length a2).store
        = (fetchProfileDone (login s k2) s.sent.length a2).store) ∧
      ((fetchProfileDone (fetchProfileDone (login s k2) s.sent.length a2) id1 a1).agent
        = (fetchProfileDone (login s k2) s.sent.length a2).agent ∧
       (fetchProfileDone (fetchProfileDone (login s k2) s.sent.length a2) id1 a1).store
        = (fetchProfileDone (login s k2) s.sent.length a2).store)) := by
  obtain ⟨hlt, _⟩ := List.getElem?_eq_some.mp hk1
  have hne : id1 ≠ s.sent.length := Nat.ne_of_lt hlt
  have hL := login_fresh s k2 hk2 hnew
  have hp : (login s k2).pending = s.pending ++ [s.sent.length] := by rw [hL]
  have hst : (login s k2).store = some k2 := by rw [hL]
  have h1 : id1 ∈ (login s k2).pending := by rw [hp]; simp [hflight]
  have h2 : s.sent.length ∈ (login s k2).pending := by rw [hp]; simp
  have c1 := fetchProfileDone_cells (login s k2) id1 a1 h1
  have c2 := fetchProfileDone_cells (login s k2) s.sent.length a2 h2
  have h21 : s.sent.length ∈ (fetchProfileDone (login s k2) id1 a1).pending := by
    rw [c1.2.2.2.2.1]
    exact (List.mem_erase_of_ne (Ne.symm hne)).mpr h2
  have h12 : id1 ∈ (fetchProfileDone (login s k2) s.sent.length a2).pending := by
    rw [c2.2.2.2.2.1]
    exact (List.mem_erase_of_ne hne).mpr h1
  have cA := fetchProfileDone_cells (fetchProfileDone (login s k2) id1 a1) s.sent.length a2 h21
  have cB := fetchProfileDone_cells (fetchProfileDone (login s k2) s.sent.length a2) id1 a1 h12
  have eA : (fetchProfileDone (fetchProfileDone (login s k2) id1 a1) s.sent.length a2).store
      = (if (identityBody a1).isSome ∧ (identityBody a2).isSome then some k2 else none) := by
    rw [cA.2.1, c1.2.1, hst]
    cases identityBody a1 <;> cases identityBody a2 <;> simp
  have eB : (fetchProfileDone (fetchProfileDone (login s k2) s.sent.length a2) id1 a1).store
      = (if (identityBody a1).isSome ∧ (identityBody a2).isSome then some k2 else none) := by
    rw [cB.2.1, c2.2.1, hst]
    cases identityBody a1 <;> cases identityBody a2 <;> simp
  have eS : (fetchProfileDone (login s k2) s.sent.length a2).store
      = (if (identityBody a2).isSome then some k2 else none) := by
    rw [c2.2.1, hst]
  refine ⟨⟨cA.1, eA⟩, ⟨cB.1, eB⟩, ⟨c2.1, eS⟩, ?_, ?_⟩
  · intro hs
    refine ⟨by rw [cA.1, c2.1], ?_⟩
    rw [eA, eS]
    simp [hs]
  · intro n1 n2
    refine ⟨⟨by rw [cA.1, c2.1], ?_⟩, ⟨?_, ?_⟩⟩
    · rw [eA, eS]; simp [n1, n2]
    · rw [cB.1, c2.1, n1, n2]
    · rw [eB, eS]; simp [n1, n2]

/-- The amended C3 at a concrete input: the request for `k1` pending from
creation, `login` with `k2`, the `k1` answer a success arriving first. -/
theorem stale_answer_effect_witness :
    (0 ∈ (AuthProvider (some "k1")).pending ∧ (AuthProvider (some "k1")).sent[0]? = some "k1" ∧
      "k2" ≠ "" ∧ (AuthProvider (some "k1")).apiKey ≠ some "k2") ∧
    (fetchProfileDone (fetchProfileDone (login (AuthProvider (some "k1")) "k2") 0
        (some ⟨200, "OK", some (Json.str "one")⟩)) (AuthProvider (some "k1")).sent.length
        (some ⟨200, "OK", some (Json.str "two")⟩)).agent
      = (identityBody (some ⟨200, "OK", some (Json.str "two")⟩)).getD Json.null :=
  ⟨⟨by decide, by decide, by decide, by decide⟩,
   (stale_answer_effect (AuthProvider (some "k1")) "k1" "k2" 0
      (some ⟨200, "OK", some (Json.str "one")⟩) (some ⟨200, "OK", some (Json.str "two")⟩)
      (by decide) (by decide) (by decide) (by decide)).1.1⟩

/-- C4: with a non-empty key `k` stored and cached, a resolution of `k` whose
request is answered by a success response with JSON body `d` ends with the
identity equal to `d`, the store still holding `k` and `loading` false; a
later `refresh` sends `k` again, and when that request is answered by a
success response with body `d2` the identity is `d2` and `k` is still
stored. -/
theorem successful_resolution_sets_identity (s : Session) (k : String) (res res2 : Response)
    (d d2 : Json) (hk : k ≠ "") (hstore : s.store = some k) (hkey : s.apiKey = some k)
    (hok : res.ok = true) (hd : res.json = some d)
    (hok2 : res2.ok = true) (hd2 : res2.json = some d2) :
    ((resolve s (some k) (some res)).agent = d ∧
     (resolve s (some k) (some res)).store = some k ∧
     (resolve s (some k) (some res)).loading = false) ∧
    (refresh (resolve s (some k) (some res))).sent = s.sent ++ [k] ++ [k] ∧
    ((fetchProfileDone (refresh (resolve s (some k) (some res)))
        (resolve s (some k) (some res)).sent.length (some res2)).agent = d2 ∧
     (fetchProfileDone (refresh (resolve s (some k) (some res)))
        (resolve s (some k) (some res)).sent.length (some res2)).store = some k ∧
     (fetchProfileDone (refresh (resolve s (some k) (some res)))
        (resolve s (some k) (some res)).sent.length (some res2)).loading = false) := by
  have hb : identityBody (some res) = some d := by simp [identityBody, hok, hd]
  have hb2 : identityBody (some res2) = some d2 := by simp [identityBody, hok2, hd2]
  have hid : s.sent.length ∈ (fetchProfile s (some k)).pending := by
    rw [fetchProfile_key s k hk]; simp
  have e1 : resolve s (some k) (some res) =
      { fetchProfile s (some k) with
          pending := (fetchProfile s (some k)).pending.erase s.sent.length,
          agent := d, loading := false } :=
    fetchProfileDone_success (fetchProfile s (some k)) s.sent.length (some res) d hid hb
  have hkey1 : (resolve s (some k) (some res)).apiKey = some k := by
    rw [e1, fetchProfile_key s k hk]; exact hkey
  have hsent1 : (resolve s (some k) (some res)).sent = s.sent ++ [k] := by
    rw [e1, fetchProfile_key s k hk]
  have hstore1 : (resolve s (some k) (some res)).store = some k := by
    rw [e1, fetchProfile_key s k hk]; exact hstore
  have e3 : refresh (resolve s (some k) (some res)) =
      fetchProfile (resolve s (some k) (some res)) (some k) := by
    unfold refresh; rw [hkey1]
  have hid2 : (resolve s (some k) (some res)).sent.length ∈
      (refresh (resolve s (some k) (some res))).pending := by
    rw [e3, fetchProfile_key _ k hk]; simp
  have e4 := fetchProfileDone_success (refresh (resolve s (some k) (some res)))
    (resolve s (some k) (some res)).sent.length (some res2) d2 hid2 hb2
  refine ⟨⟨by rw [e1], hstore1, by rw [e1]⟩, ?_, ?_⟩
  · rw [e3, fetchProfile_key _ k hk, hsent1]
  · rw [e4]
    refine ⟨rfl, ?_, rfl⟩
    show (refresh (resolve s (some k) (some res))).store = some k
    rw [e3, fetchProfile_key _ k hk]
    exact hstore1

/-- The scenario B of the spec: `login` with `agnt_good` from an empty store
writes the key and starts the resolution; the 200 answer carries the record
of the agent Scout, and a later `refresh` is answered with a changed name. -/
theorem successful_resolution_sets_identity_witness :
    login (AuthProvider none) "agnt_good" =
      fetchProfile ⟨some "agnt_good", some "agnt_good", Json.null, false, [], []⟩
        (some "agnt_good") ∧
    (resolve ⟨some "agnt_good", some "agnt_good", Json.null, false, [], []⟩ (some "agnt_good")
      (some ⟨200, "OK", some (Json.obj [("id", Json.num "1"), ("name", Json.str "Scout"),
        ("status", Json.str "active")])⟩)).agent
      = Json.obj [("id", Json.num "1"), ("name", Json.str "Scout"),
          ("status", Json.str "active")] ∧
    (resolve ⟨some "agnt_good", some "agnt_good", Json.null, false, [], []⟩ (some "agnt_good")
      (some ⟨200, "OK", some (Json.obj [("id", Json.num "1"), ("name", Json.str "Scout"),
        ("status", Json.str "active")])⟩)).store = some "agnt_good" :=
  ⟨rfl,
   (successful_resolution_sets_identity
      ⟨some "agnt_good", some "agnt_good", Json.null, false, [], []⟩ "agnt_good"
      ⟨200, "OK", some (Json.obj [("id", Json.num "1"), ("name", Json.str "Scout"),
        ("status", Json.str "active")])⟩
      ⟨200, "OK", some (Json.obj [("id", Json.num "1"), ("name", Json.str "Ranger"),
        ("status", Json.str "active")])⟩
      _ _ (by decide) rfl rfl rfl rfl rfl rfl).1.1,
   (successful_resolution_sets_identity
      ⟨some "agnt_good", some "agnt_good", Json.null, false, [], []⟩ "agnt_good"
      ⟨200, "OK", some (Json.obj [("id", Json.num "1"), ("name", Json.str "Scout"),
        ("status", Json.str "active")])⟩
      ⟨200, "OK", some (Json.obj [("id", Json.num "1"), ("name", Json.str "Ranger"),
        ("status", Json.str "active")])⟩
      _ _ (by decide) rfl rfl rfl rfl rfl rfl).1.2.1⟩

/-! ### Requests built by `apiFetch` -/

/-- Reading a property of two runs of writes: the later run wins. -/
theorem Headers.get_append (a b : Headers) (name : String) :
    Headers.get (a ++ b) name =
      match Headers.get b name with
      | some w => some w
      | none => Headers.get a name := by
  induction a with
  | nil => cases hb : Headers.get b name <;> simp [Headers.get, hb]
  | cons p rest ih =>
    obtain ⟨k, v⟩ := p
    rw [List.cons_append]
    show (match Headers.get (rest ++ b) name with
      | some w => some w
      | none => if k = name then some v else none) = _
    rw [ih]
    cases hb : Headers.get b name with
    | none => rfl
    | some w => rfl

/-- Reading a property after writing one. -/
theorem Headers.get_set (h : Headers) (name value other : String) :
    Headers.get (Headers.set h name value) other =
      if name = other then some value else Headers.get h other := by
  unfold Headers.set
  rw [Headers.get_append]
  by_cases e : name = other <;> simp [Headers.get, e]

/-- C5 fails on the code: with nothing stored, a caller whose options carry an
`X-Agent-Key` header gets that header on the outgoing request. -/
theorem identity_header_counterexample :
    (apiFetch none (fun _ => none) "/jobs"
      ⟨none, none, some [("X-Agent-Key", "intruder")]⟩).1.map
        (fun r => Headers.get r.headers "X-Agent-Key") = [some "intruder"] := by
  decide

/-- C5 as the code has it, read on the headers object handed to `fetch`: for
every path and options, when a non-empty credential `k` is stored the member
`X-Agent-Key` is `k`, whatever the options carry; when nothing is stored, or
the empty string is, the member is the one the options carry, so it is missing
exactly when the options have none. -/
theorem identity_header (store : Option String) (transport : Request → Option Response)
    (path : String) (options : Options) :
    (apiFetch store transport path options).1 = [buildRequest store path options] ∧
    (∀ k, store = some k → k ≠ "" →
      Headers.get (buildRequest store path options).headers "X-Agent-Key" = some k) ∧
    (store = none ∨ store = some "" →
      Headers.get (buildRequest store path options).headers "X-Agent-Key" =
        Headers.get (options.headers.getD []) "X-Agent-Key") := by
  refine ⟨rfl, ?_, ?_⟩
  · intro k hs hk
    subst hs
    simp [buildRequest, requestHeaders, hk, Headers.get_set]
  · intro hs
    have hbase : Headers.get [("Content-Type", "application/json")] "X-Agent-Key" = none := by
      decide
    have key : Headers.get
        (Headers.spread [("Content-Type", "application/json")] (options.headers.getD []))
        "X-Agent-Key" = Headers.get (options.headers.getD []) "X-Agent-Key" := by
      unfold Headers.spread
      rw [Headers.get_append, hbase]
      cases Headers.get (options.headers.getD []) "X-Agent-Key" <;> rfl
    rcases hs with hs | hs
    · subst hs
      simpa [buildRequest, requestHeaders] using key
    · subst hs
      simpa [buildRequest, requestHeaders] using key

/-- The amended C5 at concrete inputs: a stored key overrides a header of the
caller, and with nothing stored and no header in the options none is sent. -/
theorem identity_header_witness :
    Headers.get (buildRequest (some "agnt_good") "/jobs"
      ⟨none, none, some [("X-Agent-Key", "intruder")]⟩).headers "X-Agent-Key"
      = some "agnt_good" ∧
    Headers.get (buildRequest none "/jobs" ⟨none, none, none⟩).headers "X-Agent-Key" = none :=
  ⟨(identity_header (some "agnt_good") (fun _ => none) "/jobs"
      ⟨none, none, some [("X-Agent-Key", "intruder")]⟩).2.1 "agnt_good" rfl (by decide),
   (identity_header none (fun _ => none) "/jobs" ⟨none, none, none⟩).2.2 (Or.inl rfl)⟩

/-! ### Errors raised by `apiFetch` -/

/-- The settlement of `apiFetch` on a response that is not a success: the
conversion of the selected value to the message of the error. -/
theorem settle_not_ok (res : Response) (hbad : res.ok = false) :
    settle (some res) =
      match errorText (selectMessage res) with
      | some m => Except.error (Failure.http m)
      | none => Except.error Failure.conversion := by
  simp [settle, hbad]

/-- C6 fails on the code: a 401 response whose body has the nested message
`""` gives an error whose message is the rendering of the `detail` object. -/
theorem nested_message_counterexample :
    optChain (optChain (some (Json.obj [("detail", Json.obj [("message", Json.str "")])]))
      "detail") "message" = some (Json.str "") ∧
    (apiFetch none
      (fun _ => some ⟨401, "Unauthorized",
        some (Json.obj [("detail", Json.obj [("message", Json.str "")])])⟩)
      "/agents/me" ⟨none, none, none⟩).2 = Except.error (Failure.http "[object Object]") ∧
    "[object Object]" ≠ "" := by
  refine ⟨rfl, rfl, by decide⟩

/-- C6 as the code has it: for every response that is not a success and whose
body parses to a value with a nested `detail.message` that is a non-empty
string `m`, `apiFetch` rejects with an error whose message is exactly `m`,
whatever the status text and the other members of the body. -/
theorem nested_message (store : Option String) (transport : Request → Option Response)
    (path : String) (options : Options) (res : Response) (body : Json) (m : String)
    (hres : transport (buildRequest store path options) = some res)
    (hbad : res.ok = false) (hbody : res.json = some body)
    (hmsg : optChain (optChain (some body) "detail") "message" = some (Json.str m))
    (hm : m ≠ "") :
    (apiFetch store transport path options).2 = Except.error (Failure.http m) := by
  show settle (transport (buildRequest store path options)) = _
  rw [hres, settle_not_ok res hbad]
  simp [selectMessage, hbody, hmsg, jsOr, truthyOpt, Json.truthy, hm, errorText,
    Json.toJsString]

/-- The property P5 of the spec: a 401 response with the body
`detail.message = "Invalid API key"` and an unrelated status text. -/
theorem nested_message_witness :
    (apiFetch (some "agnt_bad")
      (fun _ => some ⟨401, "Unauthorized",
        some (Json.obj [("detail", Json.obj [("message", Json.str "Invalid API key")]),
          ("code", Json.num "7")])⟩)
      "/agents/me" ⟨none, none, none⟩).2 = Except.error (Failure.http "Invalid API key") :=
  nested_message (some "agnt_bad") _ "/agents/me" ⟨none, none, none⟩
    ⟨401, "Unauthorized",
      some (Json.obj [("detail", Json.obj [("message", Json.str "Invalid API key")]),
        ("code", Json.num "7")])⟩
    (Json.obj [("detail", Json.obj [("message", Json.str "Invalid API key")]),
      ("code", Json.num "7")])
    "Invalid API key" rfl rfl rfl rfl (by decide)

/-- C7 fails on the code: a 500 response whose `detail` is an object without
`message` gives the rendering of that object, not the status text; and a
`detail` that is the empty string gives the status text, not the string. -/
theorem detail_fallback_counterexample :
    (optChain (optChain (some (Json.obj [("detail", Json.obj [("code", Json.num "1")])]))
        "detail") "message" = none ∧
     (apiFetch none
        (fun _ => some ⟨500, "Internal Server Error",
          some (Json.obj [("detail", Json.obj [("code", Json.num "1")])])⟩)
        "/jobs" ⟨none, none, none⟩).2 = Except.error (Failure.http "[object Object]") ∧
     "[object Object]" ≠ "Internal Server Error") ∧
    (optChain (optChain (some (Json.obj [("detail", Json.str "")])) "detail") "message" = none ∧
     (apiFetch none
        (fun _ => some ⟨500, "Internal Server Error",
          some (Json.obj [("detail", Json.str "")])⟩)
        "/jobs" ⟨none, none, none⟩).2 = Except.error (Failure.http "Internal Server Error") ∧
     "Internal Server Error" ≠ "") := by
  refine ⟨⟨rfl, rfl, by decide⟩, rfl, rfl, by decide⟩

/-- C7 as the code has it. For every response that is not a success and has
no nested `detail.message`: when the body does not parse, or `detail` is
missing or falsy (`null`, `false`, zero, the empty string), the message is the
status text; when `detail` is a non-empty string the message is that string;
and for any other `detail` (`true`, a non-zero number, an array, an object)
the message is the string conversion of `detail`, failing with the conversion
error when that conversion throws. -/
theorem detail_fallback (store : Option String) (transport : Request → Option Response)
    (path : String) (options : Options) (res : Response)
    (hres : transport (buildRequest store path options) = some res)
    (hbad : res.ok = false)
    (hmsg : optChain (optChain (some (res.json.getD Json.null)) "detail") "message" = none) :
    (res.json = none →
      (apiFetch store transport path options).2
        = Except.error (Failure.http res.statusText)) ∧
    (truthyOpt (optChain (some (res.json.getD Json.null)) "detail") = false →
      (apiFetch store transport path options).2
        = Except.error (Failure.http res.statusText)) ∧
    (∀ x, optChain (some (res.json.getD Json.null)) "detail" = some (Json.str x) → x ≠ "" →
      (apiFetch store transport path options).2 = Except.error (Failure.http x)) ∧
    (∀ v, optChain (some (res.json.getD Json.null)) "detail" = some v → v.truthy = true →
      (apiFetch store transport path options).2 =
        match v.toJsString with
        | some t => Except.error (Failure.http t)
        | none => Except.error Failure.conversion) := by
  have hset : (apiFetch store transport path options).2 =
      match errorText (selectMessage res) with
      | some m => Except.error (Failure.http m)
      | none => Except.error Failure.conversion := by
    show settle (transport (buildRequest store path options)) = _
    rw [hres, settle_not_ok res hbad]
  have hsel : selectMessage res =
      jsOr (optChain (some (res.json.getD Json.null)) "detail")
        (some (Json.str res.statusText)) := by
    show jsOr (jsOr (optChain (optChain (some (res.json.getD Json.null)) "detail") "message")
      (optChain (some (res.json.getD Json.null)) "detail")) (some (Json.str res.statusText)) = _
    rw [hmsg]
    rfl
  have hfalsy : truthyOpt (optChain (some (res.json.getD Json.null)) "detail") = false →
      (apiFetch store transport path options).2
        = Except.error (Failure.http res.statusText) := by
    intro hf
    rw [hset, hsel, jsOr, hf]
    rfl
  have htruthy : ∀ v, optChain (some (res.json.getD Json.null)) "detail" = some v →
      v.truthy = true →
      (apiFetch store transport path options).2 =
        match v.toJsString with
        | some t => Except.error (Failure.http t)
        | none => Except.error Failure.conversion := by
    intro v hv ht
    have hto : truthyOpt (some v) = true := ht
    rw [hset, hsel, hv, jsOr, hto]
    rfl
  refine ⟨?_, hfalsy, ?_, htruthy⟩
  · intro hj
    apply hfalsy
    simp [hj, optChain, truthyOpt]
  · intro x hx hne
    have h := htruthy (Json.str x) hx (by simp [Json.truthy, hne])
    simpa [Json.toJsString] using h

/-- The scenario D of the spec: a 500 response to the jobs request with the
body `detail = "overloaded"`. -/
theorem detail_fallback_witness :
    (apiFetch (some "agnt_good")
      (fun _ => some ⟨500, "Internal Server Error",
        some (Json.obj [("detail", Json.str "overloaded")])⟩)
      "/jobs?as_role=worker&limit=50" ⟨none, none, none⟩).2
      = Except.error (Failure.http "overloaded") :=
  (detail_fallback (some "agnt_good") _ "/jobs?as_role=worker&limit=50" ⟨none, none, none⟩
    ⟨500, "Internal Server Error", some (Json.obj [("detail", Json.str "overloaded")])⟩
    rfl rfl rfl).2.2.1 "overloaded" rfl (by decide)

/-- C8: `apiFetch` hands exactly one request to the transport; it yields a
value exactly when the transport delivers a response with a success status
whose body parses, and the value is the parsed body; a transport failure, a
status that is not a success, and a success response whose body does not
parse each make it reject with an error. -/
theorem apiFetch_result (store : Option String) (transport : Request → Option Response)
    (path : String) (options : Options) :
    (apiFetch store transport path options).1 = [buildRequest store path options] ∧
    (apiFetch store transport path options).1.length = 1 ∧
    (∀ v, (apiFetch store transport path options).2 = Except.ok v ↔
      ∃ res, transport (buildRequest store path options) = some res ∧
        res.ok = true ∧ res.json = some v) ∧
    (transport (buildRequest store path options) = none →
      (apiFetch store transport path options).2 = Except.error Failure.transport) ∧
    (∀ res, transport (buildRequest store path options) = some res → res.ok = false →
      ∃ e, (apiFetch store transport path options).2 = Except.error e) ∧
    (∀ res, transport (buildRequest store path options) = some res → res.ok = true →
      res.json = none →
      (apiFetch store transport path options).2 = Except.error Failure.decode) := by
  have hdef : (apiFetch store transport path options).2 =
      settle (transport (buildRequest store path options)) := rfl
  refine ⟨rfl, rfl, ?_, ?_, ?_, ?_⟩
  · intro v
    rw [hdef]
    cases ht : transport (buildRequest store path options) with
    | none => simp [settle]
    | some res =>
      by_cases hok : res.ok = true
      · cases hj : res.json with
        | none => simp [settle, hok, hj]
        | some w => simp [settle, hok, hj]
      · have hbad : res.ok = false := by simpa using hok
        rw [settle_not_ok res hbad]
        cases errorText (selectMessage res) <;> simp [hbad]
  · intro ht
    rw [hdef, ht]
    rfl
  · intro res ht hbad
    rw [hdef, ht, settle_not_ok res hbad]
    cases errorText (selectMessage res) with
    | none => exact ⟨_, rfl⟩
    | some m => exact ⟨_, rfl⟩
  · intro res ht hok hj
    rw [hdef, ht]
    simp [settle, hok, hj]

/-- C8 at concrete inputs: a 200 response yields its body, and a 200 response
with an undecodable body is a rejection. -/
theorem apiFetch_result_witness :
    (apiFetch none (fun _ => some ⟨200, "OK", some (Json.arr [])⟩) "/jobs"
      ⟨none, none, none⟩).2 = Except.ok (Json.arr []) ∧
    (apiFetch none (fun _ => some ⟨200, "OK", none⟩) "/jobs"
      ⟨none, none, none⟩).2 = Except.error Failure.decode :=
  ⟨((apiFetch_result none (fun _ => some ⟨200, "OK", some (Json.arr [])⟩) "/jobs"
      ⟨none, none, none⟩).2.2.1 (Json.arr [])).mpr ⟨_, rfl, rfl, rfl⟩,
   (apiFetch_result none (fun _ => some ⟨200, "OK", none⟩) "/jobs"
      ⟨none, none, none⟩).2.2.2.2.2 _ rfl rfl rfl⟩

/-! ### Invariants of the session -/

/-- A falsy key makes `fetchProfile` clear the identity and issue nothing. -/
theorem fetchProfile_falsy (s : Session) (key : Option String)
    (h : key = none ∨ key = some "") :
    fetchProfile s key = { s with agent := Json.null, loading := false } := by
  rcases h with h | h <;> subst h <;> simp [fetchProfile]

/-- The call `fetchProfile` writes neither copy of the credential. -/
theorem fetchProfile_credential (s : Session) (key : Option String) :
    (fetchProfile s key).store = s.store ∧ (fetchProfile s key).apiKey = s.apiKey := by
  cases key with
  | none => simp [fetchProfile]
  | some k => by_cases hk : k = "" <;> simp [fetchProfile, hk]

/-- The effect of line 29 writes neither copy of the credential. -/
theorem useEffect_credential (prev : Option String) (s : Session) :
    (useEffect prev s).store = s.store ∧ (useEffect prev s).apiKey = s.apiKey := by
  unfold useEffect
  by_cases h : s.apiKey = prev
  · simp [h]
  · simp only [if_neg h]
    exact fetchProfile_credential s s.apiKey

/-- Every transition keeps the cached credential equal to the stored one. -/
theorem step_credential (s : Session) (e : Event) (h : s.apiKey = s.store) :
    (step s e).apiKey = (step s e).store := by
  cases e with
  | login key =>
    show (login s key).apiKey = (login s key).store
    unfold login
    rw [(useEffect_credential _ _).1, (useEffect_credential _ _).2]
  | logout =>
    show (logout s).apiKey = (logout s).store
    unfold logout
    rw [(useEffect_credential _ _).1, (useEffect_credential _ _).2]
  | refresh =>
    show (refresh s).apiKey = (refresh s).store
    unfold refresh
    rw [(fetchProfile_credential _ _).1, (fetchProfile_credential _ _).2]
    exact h
  | answer id response =>
    show (fetchProfileDone s id response).apiKey = (fetchProfileDone s id response).store
    by_cases hid : id ∈ s.pending
    · have c := fetchProfileDone_cells s id response hid
      rw [c.2.1, c.2.2.1, h]
    · simp [fetchProfileDone, hid, h]

/-- In every reachable state the cached credential equals the stored one. -/
theorem reachable_credential (s : Session) (h : Reachable s) : s.apiKey = s.store := by
  induction h with
  | init store =>
    unfold AuthProvider
    rw [(fetchProfile_credential _ _).1, (fetchProfile_credential _ _).2]
  | next s e _ ih => exact step_credential s e ih

/-- A run of events from a reachable state ends in a reachable state. -/
theorem reachable_run (events : List Event) (s : Session) (h : Reachable s) :
    Reachable (run s events) := by
  induction events generalizing s with
  | nil => exact h
  | cons e rest ih => exact ih (step s e) (Reachable.next s e h)

/-- The call `logout` when no credential is cached: no re-render follows. -/
theorem logout_cached_none (s : Session) (h : s.apiKey = none) :
    logout s = { s with store := none, apiKey := none, agent := Json.null } := by
  simp [logout, useEffect, h]

/-- The call `logout` when a credential is cached: the effect runs with
`null` and lowers `loading`. -/
theorem logout_cached_some (s : Session) (h : s.apiKey ≠ none) :
    logout s = { s with store := none, apiKey := none, agent := Json.null,
                        loading := false } := by
  have h2 : ¬ (none = s.apiKey) := fun e => h e.symm
  simp [logout, useEffect, h2, fetchProfile]

/-- In every reachable state without a cached credential `loading` is
false. -/
theorem reachable_loading (s : Session) (h : Reachable s) :
    s.apiKey = none → s.loading = false := by
  induction h with
  | init store =>
    cases store with
    | none => intro _; rfl
    | some k =>
      intro hk
      unfold AuthProvider at hk
      rw [(fetchProfile_credential _ _).2] at hk
      cases hk
  | next s e _ ih =>
    cases e with
    | login key =>
      intro hk
      have h2 : (login s key).apiKey = some key := by
        unfold login; rw [(useEffect_credential _ _).2]
      have hk2 : (login s key).apiKey = none := hk
      rw [h2] at hk2
      cases hk2
    | logout =>
      intro _
      show (logout s).loading = false
      by_cases h : s.apiKey = none
      · rw [logout_cached_none s h]; exact ih h
      · rw [logout_cached_some s h]
    | refresh =>
      intro hk
      have h2 : s.apiKey = none := by
        have := (fetchProfile_credential s s.apiKey).2
        exact this ▸ hk
      show (fetchProfile s s.apiKey).loading = false
      rw [h2]
      rfl
    | answer id response =>
      intro hk
      show (fetchProfileDone s id response).loading = false
      by_cases hid : id ∈ s.pending
      · exact (fetchProfileDone_cells s id response hid).2.2.2.1
      · have e : fetchProfileDone s id response = s := by simp [fetchProfileDone, hid]
        rw [e]
        apply ih
        have hk2 : (fetchProfileDone s id response).apiKey = none := hk
        rw [e] at hk2
        exact hk2

/-- C10: in every state `logout` leaves the store empty, the cached credential
`null` and the identity absent, and issues no request; it is idempotent; in
a reachable state it leaves `loading` false; and called in a reachable state
with nothing stored, no identity and `loading` false it changes nothing. -/
theorem logout_idempotent (s : Session) :
    ((logout s).store = none ∧ (logout s).apiKey = none ∧ (logout s).agent = Json.null) ∧
    ((logout s).sent = s.sent ∧ (logout s).pending = s.pending) ∧
    logout (logout s) = logout s ∧
    (Reachable s → (logout s).loading = false) ∧
    (Reachable s → s.store = none → s.agent = Json.null → s.loading = false →
      logout s = s) := by
  have hkey : (logout s).apiKey = none := by
    by_cases h : s.apiKey = none
    · rw [logout_cached_none s h]
    · rw [logout_cached_some s h]
  refine ⟨?_, ?_, ?_, ?_, ?_⟩
  · by_cases h : s.apiKey = none
    · rw [logout_cached_none s h]; exact ⟨rfl, rfl, rfl⟩
    · rw [logout_cached_some s h]; exact ⟨rfl, rfl, rfl⟩
  · by_cases h : s.apiKey = none
    · rw [logout_cached_none s h]; exact ⟨rfl, rfl⟩
    · rw [logout_cached_some s h]; exact ⟨rfl, rfl⟩
  · rw [logout_cached_none (logout s) hkey]
    by_cases h : s.apiKey = none
    · rw [logout_cached_none s h]
    · rw [logout_cached_some s h]
  · intro hr
    by_cases h : s.apiKey = none
    · rw [logout_cached_none s h]; exact reachable_loading s hr h
    · rw [logout_cached_some s h]
  · intro hr hst hag _
    have hk : s.apiKey = none := by rw [reachable_credential s hr, hst]
    rw [logout_cached_none s hk]
    cases s
    simp_all

/-- C10 at a concrete input: the state in which the component starts with an
empty store is reachable and `logout` leaves it as it is. -/
theorem logout_idempotent_witness :
    logout (AuthProvider none) = AuthProvider none :=
  (logout_idempotent (AuthProvider none)).2.2.2.2 (Reachable.init none) rfl rfl rfl

/-- The state in which the component starts satisfies the invariant. -/
theorem inTurnInvariant_init (store : Option String) : InTurnInvariant (AuthProvider store) := by
  cases store with
  | none => simp [InTurnInvariant, AuthProvider, fetchProfile]
  | some k =>
    by_cases hk : k = ""
    · simp [InTurnInvariant, AuthProvider, fetchProfile, hk]
    · simp [InTurnInvariant, AuthProvider, fetchProfile, hk]

/-- A transition made in turn keeps the invariant. -/
theorem inTurnInvariant_step (s : Session) (e : Event) (hinv : InTurnInvariant s)
    (hturn : e.inTurn s) : InTurnInvariant (step s e) := by
  obtain ⟨hks, hlen, hload, hag, hpend⟩ := hinv
  cases e with
  | login key =>
    have hp : s.pending = [] := hturn
    have hl : s.loading = false := by
      cases hb : s.loading with
      | false => rfl
      | true => exact absurd hp (hload.mp hb)
    show InTurnInvariant (login s key)
    by_cases hsame : s.apiKey = some key
    · rw [(login_without_request s key).2 hsame]
      refine ⟨hsame, hlen, hload, ?_, fun hx => absurd hp hx⟩
      intro ha
      obtain ⟨k, hk1, hk2⟩ := hag ha
      have : some key = some k := by rw [← hsame, hks, hk1]
      injection this with this
      exact ⟨key, rfl, this ▸ hk2⟩
    · by_cases hk : key = ""
      · subst hk
        have h2 : ¬ (some "" = s.apiKey) := fun e => hsame e.symm
        simp [InTurnInvariant, login, useEffect, h2, fetchProfile, hp]
      · rw [login_fresh s key hk hsame]
        simp [InTurnInvariant, hp, hk]
  | logout =>
    have hp : s.pending = [] := hturn
    have hl : s.loading = false := by
      cases hb : s.loading with
      | false => rfl
      | true => exact absurd hp (hload.mp hb)
    show InTurnInvariant (logout s)
    by_cases h : s.apiKey = none
    · rw [logout_cached_none s h]
      simp [InTurnInvariant, hp, hl]
    · rw [logout_cached_some s h]
      simp [InTurnInvariant, hp]
  | refresh =>
    have hp : s.pending = [] := hturn
    show InTurnInvariant (refresh s)
    unfold refresh
    cases hkey : s.apiKey with
    | none =>
      rw [fetchProfile_falsy s none (Or.inl rfl)]
      simp [InTurnInvariant, hp, ← hks, hkey]
    | some k =>
      by_cases hk : k = ""
      · subst hk
        rw [fetchProfile_falsy s (some "") (Or.inr rfl)]
        simp [InTurnInvariant, hp, ← hks, hkey]
      · rw [fetchProfile_key s k hk]
        simp [InTurnInvariant, hp, ← hks, hkey, hk]
  | answer id response =>
    show InTurnInvariant (fetchProfileDone s id response)
    by_cases hid : id ∈ s.pending
    · have hne : s.pending ≠ [] := List.ne_nil_of_mem hid
      obtain ⟨k, hk1, hk2⟩ := hpend hne
      have hp : s.pending = [id] := by
        cases hs : s.pending with
        | nil => exact absurd hs hne
        | cons a rest =>
          rw [hs] at hlen hid
          have hr : rest = [] := by
            cases rest with
            | nil => rfl
            | cons b more => simp at hlen
          subst hr
          simp at hid
          rw [hid]
      have c := fetchProfileDone_cells s id response hid
      have hpe : (fetchProfileDone s id response).pending = [] := by
        rw [c.2.2.2.2.1, hp]; simp
      refine ⟨?_, ?_, ?_, ?_, ?_⟩
      · rw [c.2.1, c.2.2.1, hks]
      · rw [hpe]; simp
      · rw [hpe, c.2.2.2.1]; simp
      · intro ha
        rw [c.1] at ha
        cases hb : identityBody response with
        | none => rw [hb] at ha; exact absurd rfl ha
        | some d => exact ⟨k, by rw [c.2.1, hb]; simpa using hk1, hk2⟩
      · intro hx
        exact absurd hpe hx
    · have : fetchProfileDone s id response = s := by simp [fetchProfileDone, hid]
      rw [this]
      exact ⟨hks, hlen, hload, hag, hpend⟩

/-- Every state reached in turn satisfies the invariant. -/
theorem inTurnInvariant_of_reachable (s : Session) (h : ReachableInTurn s) :
    InTurnInvariant s := by
  induction h with
  | init store => exact inTurnInvariant_init store
  | next s e _ hturn ih => exact inTurnInvariant_step s e ih hturn

/-- C9 fails on the code: `login`, then `logout` while the identity request is
pending, then a 200 answer to that request. The state is reachable, its store
and cached credential are empty and `loading` is false, yet the identity is
the body of the answer. -/
theorem identity_invariant_counterexample :
    Reachable (run (AuthProvider none)
      [Event.login "agnt_good", Event.logout,
        Event.answer 0 (some ⟨200, "OK", some (Json.str "Scout")⟩)]) ∧
    (run (AuthProvider none)
      [Event.login "agnt_good", Event.logout,
        Event.answer 0 (some ⟨200, "OK", some (Json.str "Scout")⟩)]).store = none ∧
    (run (AuthProvider none)
      [Event.login "agnt_good", Event.logout,
        Event.answer 0 (some ⟨200, "OK", some (Json.str "Scout")⟩)]).apiKey = none ∧
    (run (AuthProvider none)
      [Event.login "agnt_good", Event.logout,
        Event.answer 0 (some ⟨200, "OK", some (Json.str "Scout")⟩)]).loading = false ∧
    (run (AuthProvider none)
      [Event.login "agnt_good", Event.logout,
        Event.answer 0 (some ⟨200, "OK", some (Json.str "Scout")⟩)]).agent
      = Json.str "Scout" ∧
    Json.str "Scout" ≠ Json.null := by
  refine ⟨reachable_run _ _ (Reachable.init none), rfl, rfl, rfl, rfl, ?_⟩
  intro h
  cases h

/-- C9 as the code has it. In every state reached from creation when `login`,
`logout` and `refresh` are called only while no identity request is pending
(answers may arrive at any time): the cached credential equals the stored one,
`loading` is true exactly while a request is pending, an identity is present
only when a non-empty credential is stored, and so whenever the store is empty
the identity is absent. -/
theorem identity_invariant (s : Session) (h : ReachableInTurn s) :
    s.apiKey = s.store ∧
    (s.loading = true ↔ s.pending ≠ []) ∧
    (s.agent ≠ Json.null → ∃ k, s.store = some k ∧ k ≠ "") ∧
    (s.store = none → s.agent = Json.null) := by
  obtain ⟨hks, _, hload, hag, _⟩ := inTurnInvariant_of_reachable s h
  refine ⟨hks, hload, hag, ?_⟩
  intro hst
  by_contra hne
  obtain ⟨k, hk, _⟩ := hag hne
  rw [hst] at hk
  cases hk

/-- The amended C9 at a concrete input: `login` from the empty store and a
200 answer, each in turn. -/
theorem identity_invariant_witness :
    (step (step (AuthProvider none) (Event.login "agnt_good"))
      (Event.answer 0 (some ⟨200, "OK", some (Json.str "Scout")⟩))).agent = Json.str "Scout" ∧
    ∃ k, (step (step (AuthProvider none) (Event.login "agnt_good"))
      (Event.answer 0 (some ⟨200, "OK", some (Json.str "Scout")⟩))).store = some k ∧ k ≠ "" :=
  ⟨rfl,
   (identity_invariant _
      (ReachableInTurn.next _ (Event.answer 0 (some ⟨200, "OK", some (Json.str "Scout")⟩))
        (ReachableInTurn.next _ (Event.login "agnt_good") (ReachableInTurn.init none) rfl)
        trivial)).2.2.1 (fun h => by cases h)⟩

/-! ### Creation, `login` and `refresh` -/

/-- C11: on creation with an empty store the identity is absent, `loading` is
false and no request is issued; with a credential `k` (a non-empty string) in
the store the identity is absent, `loading` is true and one identity request
carrying `k` is pending at once. A stored empty string is treated as an empty
store. -/
theorem AuthProvider_initial (store : Option String) :
    (store = none ∨ store = some "" →
      (AuthProvider store).agent = Json.null ∧ (AuthProvider store).loading = false ∧
      (AuthProvider store).sent = [] ∧ (AuthProvider store).pending = []) ∧
    (∀ k, store = some k → k ≠ "" →
      (AuthProvider store).agent = Json.null ∧ (AuthProvider store).loading = true ∧
      (AuthProvider store).sent = [k] ∧ (AuthProvider store).pending = [0] ∧
      (AuthProvider store).store = some k ∧ (AuthProvider store).apiKey = some k) := by
  refine ⟨?_, ?_⟩
  · intro h
    rcases h with h | h <;> subst h <;> exact ⟨rfl, rfl, rfl, rfl⟩
  · intro k hs hk
    subst hs
    simp [AuthProvider, fetchProfile, hk]

/-- C11 at concrete inputs: the scenario A of the spec, and a store that holds
a key. -/
theorem AuthProvider_initial_witness :
    ((AuthProvider none).loading = false ∧ (AuthProvider none).sent = []) ∧
    ((AuthProvider (some "agnt_good")).loading = true ∧
      (AuthProvider (some "agnt_good")).sent = ["agnt_good"]) :=
  ⟨⟨((AuthProvider_initial none).1 (Or.inl rfl)).2.1,
    ((AuthProvider_initial none).1 (Or.inl rfl)).2.2.1⟩,
   ⟨((AuthProvider_initial (some "agnt_good")).2 "agnt_good" rfl (by decide)).2.1,
    ((AuthProvider_initial (some "agnt_good")).2 "agnt_good" rfl (by decide)).2.2.1⟩⟩

/-- C12 fails on the code: in the reachable state where `agnt_good` is stored
and resolved, a second `login` with the same key writes the store and issues
no request. -/
theorem login_request_counterexample :
    Reachable (run (AuthProvider none)
      [Event.login "agnt_good", Event.answer 0 (some ⟨200, "OK", some (Json.str "Scout")⟩)]) ∧
    (run (AuthProvider none)
      [Event.login "agnt_good", Event.answer 0 (some ⟨200, "OK", some (Json.str "Scout")⟩)]).store
      = some "agnt_good" ∧
    (login (run (AuthProvider none)
      [Event.login "agnt_good", Event.answer 0 (some ⟨200, "OK", some (Json.str "Scout")⟩)])
      "agnt_good").sent
      = (run (AuthProvider none)
          [Event.login "agnt_good",
            Event.answer 0 (some ⟨200, "OK", some (Json.str "Scout")⟩)]).sent ∧
    (login (run (AuthProvider none)
      [Event.login "agnt_good", Event.answer 0 (some ⟨200, "OK", some (Json.str "Scout")⟩)])
      "agnt_good").pending = [] := by
  exact ⟨reachable_run _ _ (Reachable.init none), rfl, rfl, rfl⟩

/-- C12 as the code has it: in every state `login` writes the key verbatim to
the store and to the cache; when the key is non-empty and differs from the
cached one exactly one identity request carrying it is issued; when the key
equals the cached one, or is empty, no request is issued. -/
theorem login_request (s : Session) (k : String) :
    ((login s k).store = some k ∧ (login s k).apiKey = some k) ∧
    (k ≠ "" → s.apiKey ≠ some k →
      (login s k).sent = s.sent ++ [k] ∧
      (login s k).pending = s.pending ++ [s.sent.length]) ∧
    (s.apiKey = some k ∨ k = "" →
      (login s k).sent = s.sent ∧ (login s k).pending = s.pending) := by
  refine ⟨?_, ?_, ?_⟩
  · unfold login
    rw [(useEffect_credential _ _).1, (useEffect_credential _ _).2]
    exact ⟨rfl, rfl⟩
  · intro hk hnew
    rw [login_fresh s k hk hnew]
    exact ⟨rfl, rfl⟩
  · intro h
    by_cases hsame : s.apiKey = some k
    · rw [(login_without_request s k).2 hsame]
      exact ⟨rfl, rfl⟩
    · have hk : k = "" := by
        rcases h with h | h
        · exact absurd h hsame
        · exact h
      subst hk
      have h2 : ¬ (some "" = s.apiKey) := fun e => hsame e.symm
      simp [login, useEffect, h2, fetchProfile]

/-- The amended C12 at a concrete input: `login` with a fresh key from the
initial state of an empty store. -/
theorem login_request_witness :
    (login (AuthProvider none) "agnt_good").store = some "agnt_good" ∧
    (login (AuthProvider none) "agnt_good").sent = [] ++ ["agnt_good"] :=
  ⟨(login_request (AuthProvider none) "agnt_good").1.1,
   ((login_request (AuthProvider none) "agnt_good").2.1 (by decide) (by decide)).1⟩

/-- C13: in every reachable state `refresh` is defined; with nothing stored it
issues no request, leaves the store empty, the identity absent and `loading`
false; with a credential `k` (a non-empty string) stored it issues one
identity request carrying exactly `k` and leaves the store as it is. A stored
empty string is treated as an empty store. -/
theorem refresh_safe (s : Session) (h : Reachable s) :
    (s.store = none ∨ s.store = some "" →
      (refresh s).sent = s.sent ∧ (refresh s).pending = s.pending ∧
      (refresh s).store = s.store ∧ (refresh s).agent = Json.null ∧
      (refresh s).loading = false) ∧
    (∀ k, s.store = some k → k ≠ "" →
      (refresh s).sent = s.sent ++ [k] ∧
      (refresh s).pending = s.pending ++ [s.sent.length] ∧
      (refresh s).store = some k ∧ (refresh s).loading = true) := by
  have hc := reachable_credential s h
  refine ⟨?_, ?_⟩
  · intro hs
    have hf : s.apiKey = none ∨ s.apiKey = some "" := by rw [hc]; exact hs
    unfold refresh
    rw [fetchProfile_falsy s s.apiKey hf]
    exact ⟨rfl, rfl, rfl, rfl, rfl⟩
  · intro k hs hk
    unfold refresh
    rw [hc, hs, fetchProfile_key s k hk]
    exact ⟨rfl, rfl, hs, rfl⟩

/-- C13 at concrete inputs: `refresh` right after creation with an empty
store, and after a resolved `login`. -/
theorem refresh_safe_witness :
    (refresh (AuthProvider none)).sent = [] ∧
    (refresh (run (AuthProvider none)
      [Event.login "agnt_good", Event.answer 0 (some ⟨200, "OK", some (Json.str "Scout")⟩)])).sent
      = ["agnt_good"] ++ ["agnt_good"] :=
  ⟨((refresh_safe (AuthProvider none) (Reachable.init none)).1 (Or.inl rfl)).1,
   ((refresh_safe _ (reachable_run
      [Event.login "agnt_good", Event.answer 0 (some ⟨200, "OK", some (Json.str "Scout")⟩)]
      _ (Reachable.init none))).2 "agnt_good" rfl (by decide)).1⟩

/-! ### Views -/

/-- C14: a call of `apiFetch` by a view, whatever the path, the options and
the outcome of the transport, leaves the session as it was, so the store, the
identity and `loading` after the call equal those before it; and when the
effect of `Jobs` is rejected, the session is unchanged, the message of the
error is in the `error` cell of the view and its own `loading` is lowered. -/
theorem page_fetch_frame (s : Session) (transport : Request → Option Response)
    (path : String) (options : Options) (browser : Failure → String) (v : Jobs) :
    ((pageFetch s transport path options).1 = s ∧
     (pageFetch s transport path options).1.store = s.store ∧
     (pageFetch s transport path options).1.agent = s.agent ∧
     (pageFetch s transport path options).1.loading = s.loading ∧
     (pageFetch s transport path options).2 = apiFetch s.store transport path options) ∧
    (Jobs.load browser transport s v).1 = s ∧
    (∀ f, (apiFetch s.store transport (Jobs.effect v).2 ⟨none, none, none⟩).2 = Except.error f →
      (Jobs.load browser transport s v).2.error = f.message browser ∧
      (Jobs.load browser transport s v).2.jobs = v.jobs ∧
      (Jobs.load browser transport s v).2.loading = false) ∧
    (∀ data, (apiFetch s.store transport (Jobs.effect v).2 ⟨none, none, none⟩).2
        = Except.ok data →
      (Jobs.load browser transport s v).2.jobs = data ∧
      (Jobs.load browser transport s v).2.error = v.error ∧
      (Jobs.load browser transport s v).2.loading = false) := by
  refine ⟨⟨rfl, rfl, rfl, rfl, rfl⟩, rfl, ?_, ?_⟩
  · intro f hf
    have e : (Jobs.load browser transport s v).2 =
        Jobs.settled browser (Jobs.effect v).1
          (apiFetch s.store transport (Jobs.effect v).2 ⟨none, none, none⟩).2 := rfl
    rw [e, hf]
    exact ⟨rfl, rfl, rfl⟩
  · intro data hd
    have e : (Jobs.load browser transport s v).2 =
        Jobs.settled browser (Jobs.effect v).1
          (apiFetch s.store transport (Jobs.effect v).2 ⟨none, none, none⟩).2 := rfl
    rw [e, hd]
    exact ⟨rfl, rfl, rfl⟩

/-- The scenario D of the spec: in a session resolved for `agnt_good` the jobs
request is answered by a 500 response with `detail = "overloaded"`; the view
gets that message and the session is the one before the request. -/
theorem page_fetch_frame_witness :
    (Jobs.effect ⟨Json.arr [], true, "", "worker"⟩).2 = "/jobs?as_role=worker&limit=50" ∧
    (Jobs.load (fun _ => "") (fun _ => some ⟨500, "Internal Server Error",
        some (Json.obj [("detail", Json.str "overloaded")])⟩)
      (run (AuthProvider none)
        [Event.login "agnt_good", Event.answer 0 (some ⟨200, "OK", some (Json.str "Scout")⟩)])
      ⟨Json.arr [], true, "", "worker"⟩).2.error = "overloaded" ∧
    (Jobs.load (fun _ => "") (fun _ => some ⟨500, "Internal Server Error",
        some (Json.obj [("detail", Json.str "overloaded")])⟩)
      (run (AuthProvider none)
        [Event.login "agnt_good", Event.answer 0 (some ⟨200, "OK", some (Json.str "Scout")⟩)])
      ⟨Json.arr [], true, "", "worker"⟩).1
      = run (AuthProvider none)
        [Event.login "agnt_good", Event.answer 0 (some ⟨200, "OK", some (Json.str "Scout")⟩)] :=
  ⟨by decide,
   ((page_fetch_frame _ (fun _ => some ⟨500, "Internal Server Error",
        some (Json.obj [("detail", Json.str "overloaded")])⟩)
      "/jobs?as_role=worker&limit=50" ⟨none, none, none⟩ (fun _ => "")
      ⟨Json.arr [], true, "", "worker"⟩).2.2.1 (Failure.http "overloaded") rfl).1,
   (page_fetch_frame _ (fun _ => some ⟨500, "Internal Server Error",
        some (Json.obj [("detail", Json.str "overloaded")])⟩)
      "/jobs?as_role=worker&limit=50" ⟨none, none, none⟩ (fun _ => "")
      ⟨Json.arr [], true, "", "worker"⟩).2.1⟩

/-- C15: what `Dashboard` renders is decided by `loading` and the identity
alone. While `loading` it is the loading text, no sub-view is mounted and no
page data is requested; when not loading and the identity is absent it is the
login page, again with no sub-view and no request; and a sub-view is mounted
only when `loading` is false and an identity is present. -/
theorem dashboard_guard (agent : Json) (loading showLogin : Bool) (route : SubView) :
    (loading = true →
      Dashboard agent loading showLogin = DashboardView.authenticating ∧
      (Dashboard agent loading showLogin).mounted route = none ∧
      Dashboard.fetches agent loading showLogin route = []) ∧
    (loading = false → agent = Json.null →
      Dashboard agent loading showLogin = DashboardView.loginPrompt showLogin ∧
      (Dashboard agent loading showLogin).mounted route = none ∧
      Dashboard.fetches agent loading showLogin route = []) ∧
    (∀ view, (Dashboard agent loading showLogin).mounted route = some view →
      loading = false ∧ agent ≠ Json.null ∧ agent.truthy = true ∧ view = route) ∧
    (loading = false → agent.truthy = true →
      (Dashboard agent loading showLogin).mounted route = some route) ∧
    (∀ other, (Dashboard agent loading showLogin).mounted route
      = (Dashboard agent loading other).mounted route) := by
  refine ⟨?_, ?_, ?_, ?_, ?_⟩
  · intro hl
    subst hl
    exact ⟨rfl, rfl, rfl⟩
  · intro hl ha
    subst hl ha
    exact ⟨rfl, rfl, rfl⟩
  · intro view hv
    cases loading with
    | true => simp [Dashboard, DashboardView.mounted] at hv
    | false =>
      cases ht : agent.truthy with
      | false => simp [Dashboard, DashboardView.mounted, ht] at hv
      | true =>
        simp [Dashboard, DashboardView.mounted, ht] at hv
        refine ⟨rfl, ?_, rfl, hv.symm⟩
        intro hn
        rw [hn] at ht
        cases ht
  · intro hl ht
    subst hl
    simp [Dashboard, DashboardView.mounted, ht]
  · intro other
    cases loading with
    | true => rfl
    | false =>
      cases ht : agent.truthy with
      | false => simp [Dashboard, DashboardView.mounted, ht]
      | true => simp [Dashboard, DashboardView.mounted, ht]

/-- C15 at concrete inputs: while resolving nothing is requested on the jobs
route, and with an identity the jobs view is mounted and asks for the jobs. -/
theorem dashboard_guard_witness :
    Dashboard.fetches (Json.str "Scout") true false SubView.jobs = [] ∧
    (Dashboard (Json.str "Scout") false false).mounted SubView.jobs = some SubView.jobs ∧
    Dashboard.fetches (Json.str "Scout") false false SubView.jobs
      = ["/jobs?as_role=worker&limit=50"] :=
  ⟨((dashboard_guard (Json.str "Scout") true false SubView.jobs).1 rfl).2.2,
   (dashboard_guard (Json.str "Scout") false false SubView.jobs).2.2.2.1 rfl rfl,
   rfl⟩

/-! ### Content type and the login modal -/

/-- C16 fails on the code: options that carry their own `Content-Type` replace
the JSON content type on the outgoing request. -/
theorem content_type_counterexample :
    (apiFetch (some "agnt_good") (fun _ => none) "/jobs"
      ⟨some "POST", some "a=1", some [("Content-Type", "text/plain")]⟩).1.map
        (fun r => Headers.get r.headers "Content-Type") = [some "text/plain"] ∧
    "text/plain" ≠ "application/json" := by
  decide

/-- C16 as the code has it, read on the headers object handed to `fetch`: for
every path, options and store content, the member `Content-Type` is the one
the options carry when they carry one, and `application/json` otherwise. -/
theorem content_type (store : Option String) (transport : Request → Option Response)
    (path : String) (options : Options) :
    (apiFetch store transport path options).1 = [buildRequest store path options] ∧
    Headers.get (buildRequest store path options).headers "Content-Type" =
      (match Headers.get (options.headers.getD []) "Content-Type" with
       | some v => some v
       | none => some "application/json") := by
  refine ⟨rfl, ?_⟩
  have hbase : Headers.get [("Content-Type", "application/json")] "Content-Type"
      = some "application/json" := by decide
  have key : Headers.get
      (Headers.spread [("Content-Type", "application/json")] (options.headers.getD []))
      "Content-Type" =
      (match Headers.get (options.headers.getD []) "Content-Type" with
       | some v => some v
       | none => some "application/json") := by
    unfold Headers.spread
    rw [Headers.get_append, hbase]
  have hne : ¬ ("X-Agent-Key" = "Content-Type") := by decide
  show Headers.get (requestHeaders store options) "Content-Type" = _
  unfold requestHeaders
  cases store with
  | none => exact key
  | some k =>
    by_cases hk : k = ""
    · simpa [hk] using key
    · simp only [ne_eq, hk, not_false_eq_true, if_true]
      rw [Headers.get_set, if_neg hne]
      exact key

/-- The amended C16 at a concrete input: options without headers, with a key
stored. -/
theorem content_type_witness :
    Headers.get (buildRequest (some "agnt_good") "/jobs" ⟨none, none, none⟩).headers
      "Content-Type" = some "application/json" :=
  (content_type (some "agnt_good") (fun _ => none) "/jobs" ⟨none, none, none⟩).2

/-- C17: for every entered key and every session. A key that is empty after
trimming makes `handleSubmit` return without a request, the cells unchanged.
Otherwise one trial request carries the trimmed key; when it fails (a
rejection of `fetch`, or a status that is not a success) `login` is not
called, the session is unchanged and the `error` cell is set; `login` is
called, once and with exactly the trimmed key, when and only when the answer
has a success status. -/
theorem login_modal_protocol (s : Session) (m : LoginModal)
    (answer : Except String Response) :
    (trim m.key = "" → handleSubmit m = (m, none)) ∧
    (trim m.key ≠ "" →
      (handleSubmit m).2 = some (trim m.key) ∧
      (∀ text, answer = Except.error text →
        (handleSubmitDone s (handleSubmit m).1 m.key answer).1 = s ∧
        (handleSubmitDone s (handleSubmit m).1 m.key answer).2.1.error = text ∧
        (handleSubmitDone s (handleSubmit m).1 m.key answer).2.2 = []) ∧
      (∀ res, answer = Except.ok res → res.ok = false →
        (handleSubmitDone s (handleSubmit m).1 m.key answer).1 = s ∧
        (handleSubmitDone s (handleSubmit m).1 m.key answer).2.1.error = "Invalid API key" ∧
        (handleSubmitDone s (handleSubmit m).1 m.key answer).2.2 = []) ∧
      (∀ res, answer = Except.ok res → res.ok = true →
        (handleSubmitDone s (handleSubmit m).1 m.key answer).1 = login s (trim m.key) ∧
        (handleSubmitDone s (handleSubmit m).1 m.key answer).2.1.error = "" ∧
        (handleSubmitDone s (handleSubmit m).1 m.key answer).2.2 = [trim m.key]) ∧
      ((handleSubmitDone s (handleSubmit m).1 m.key answer).2.2 ≠ [] →
        ∃ res, answer = Except.ok res ∧ res.ok = true) ∧
      (handleSubmitDone s (handleSubmit m).1 m.key answer).2.1.loading = false) := by
  refine ⟨?_, ?_⟩
  · intro h
    simp [handleSubmit, h]
  · intro h
    have hm : handleSubmit m = ({ m with loading := true, error := "" }, some (trim m.key)) := by
      simp [handleSubmit, h]
    rw [hm]
    refine ⟨rfl, ?_, ?_, ?_, ?_, ?_⟩
    · intro text ha
      subst ha
      exact ⟨rfl, rfl, rfl⟩
    · intro res ha hb
      subst ha
      simp [handleSubmitDone, hb]
    · intro res ha hb
      subst ha
      simp [handleSubmitDone, hb]
    · intro hcall
      cases answer with
      | error text => exact absurd rfl hcall
      | ok res =>
        cases hb : res.ok with
        | true => exact ⟨res, rfl, hb⟩
        | false => simp [handleSubmitDone, hb] at hcall
    · cases answer with
      | error text => rfl
      | ok res =>
        cases hb : res.ok with
        | true => simp [handleSubmitDone, hb]
        | false => simp [handleSubmitDone, hb]

/-- C17 at concrete inputs: a key of blanks is not submitted; a padded key is
tried trimmed, a 401 answer leaves the session alone and sets the error, and
a 200 answer calls `login` with the trimmed key. -/
theorem login_modal_protocol_witness :
    handleSubmit ⟨"  \t", "", false, false⟩ = (⟨"  \t", "", false, false⟩, none) ∧
    (handleSubmit ⟨" agnt_good\n", "", false, false⟩).2 = some "agnt_good" ∧
    (handleSubmitDone (AuthProvider none) (handleSubmit ⟨" agnt_good\n", "", false, false⟩).1
      " agnt_good\n" (Except.ok ⟨401, "Unauthorized", none⟩)).2.1.error = "Invalid API key" ∧
    (handleSubmitDone (AuthProvider none) (handleSubmit ⟨" agnt_good\n", "", false, false⟩).1
      " agnt_good\n" (Except.ok ⟨200, "OK", none⟩)).2.2 = ["agnt_good"] :=
  ⟨(login_modal_protocol (AuthProvider none) ⟨"  \t", "", false, false⟩
      (Except.error "Failed to fetch")).1 (by decide),
   ((login_modal_protocol (AuthProvider none) ⟨" agnt_good\n", "", false, false⟩
      (Except.ok ⟨401, "Unauthorized", none⟩)).2 (by decide)).1,
   (((login_modal_protocol (AuthProvider none) ⟨" agnt_good\n", "", false, false⟩
      (Except.ok ⟨401, "Unauthorized", none⟩)).2 (by decide)).2.2.1 _ rfl rfl).2.1,
   (((login_modal_protocol (AuthProvider none) ⟨" agnt_good\n", "", false, false⟩
      (Except.ok ⟨200, "OK", none⟩)).2 (by decide)).2.2.2.1 _ rfl rfl).2.2⟩
end Marketplace
